import Mathlib

/-!
Verification development for the go-sarah chat-bot runtime.

Each Go component relevant to the checked properties is shallowly embedded as
executable Lean definitions: channels become bounded lists, panics become
`Except` errors, nil-able pointers become `Option`, and Go interface type
assertions become `Option`-valued fields.  Definitions follow the Go source
(file and line references are given on each definition); functions whose
implementation is not part of the source tree are modelled from the
specification and marked as such in their doc comments.
-/

namespace Sarah.Worker

/-- Observable behaviour of a queued job `func()`: it either returns normally
or panics with some value.  (worker/worker.go, jobs fed to `EnqueueJob`.) -/
inductive JobBehavior
  | returns
  | panics (v : String)
  deriving DecidableEq, Repr

/-- Capacity of the job channel: `make(chan func(), 100)` in `worker.New`
(worker/worker.go line 25).  The capacity is hardcoded, not configured. -/
def queueCapacity : Nat := 100

/-- Result of a Go send on a buffered channel: either the value is placed in
the buffer, or the buffer is full and the sender blocks. -/
inductive SendResult (α : Type)
  | delivered (queue : List α)
  | blocked
  deriving DecidableEq, Repr

/-- Semantics of a send `ch <- x` on a buffered channel whose buffer currently
holds `queue` and has capacity `queueCapacity`. -/
def chanSend (queue : List α) (x : α) : SendResult α :=
  if queue.length < queueCapacity then .delivered (queue ++ [x]) else .blocked

/-- Embeds `Worker.EnqueueJob` (worker/worker.go lines 102-104):
`worker.jobReceiver <- job`, a bare blocking channel send.  The function has no
error return and signals nothing to the caller. -/
def EnqueueJob (queue : List JobBehavior) (job : JobBehavior) : SendResult JobBehavior :=
  chanSend queue job

/-- The bare execution of `job()`: a normal return, or an in-flight panic
carrying the panic value. -/
def runJob : JobBehavior → Except String Unit
  | .returns => .ok ()
  | .panics v => .error v

/-- Embeds the recover wrapper inside `Worker.runChild` (worker/worker.go lines
70-87): the job runs inside a closure with a deferred `recover()`, so an
in-flight panic is converted into a normal return after a warning log is
emitted.  Returns the warning logs produced by the wrapped execution. -/
def recoverJob (job : JobBehavior) : List String :=
  match runJob job with
  | .ok _ => []
  | .error r => ["panic in given job. recovered: " ++ r]

/-- Embeds `Worker.runChild`'s job loop (worker/worker.go lines 62-89) over a
finite list of jobs received from the channel: each job is run inside the
recover wrapper, and the loop then proceeds to the next job.  Returns the
number of jobs executed and the accumulated warning logs. -/
def runChildJobs : List JobBehavior → Nat × List String
  | [] => (0, [])
  | job :: rest =>
    let logs := recoverJob job
    let next := runChildJobs rest
    (next.1 + 1, logs ++ next.2)

/-- `true` exactly on jobs that panic. -/
def isPanicking : JobBehavior → Bool
  | .returns => false
  | .panics _ => true

end Sarah.Worker

namespace Sarah.Cmd

/-- An inbound event satisfying the `Input` interface (see command_test.go,
`echoInput`): a stable sender key, the message text, and a nil-able reply
destination. -/
structure Input where
  senderKey : String
  message : String
  replyTo : Option String

/-- `sarah.CommandResponse`: the content returned by a command execution. -/
structure CommandResponse where
  content : String
  deriving DecidableEq, Repr

/-- The `Command` interface (command_test.go lines 11-35): an identifier, a
match predicate over the message text, and an execute function returning a
nil-able response together with a nil-able error. -/
structure Command where
  identifier : String
  matcher : String → Bool
  execute : Input → Option CommandResponse × Option String

/-- Modelled from the spec: `Commands.FindFirstMatched` lives in command.go,
which is not under src/ (only command_test.go is).  Spec section 4.5:
"linear scan in insertion order; first command whose match(Input) returns true
is selected". The test calls it with the message text (`FindFirstMatched("echo")`). -/
def FindFirstMatched (commands : List Command) (text : String) : Option Command :=
  commands.find? (fun c => c.matcher text)

/-- Modelled from the spec: `Commands.ExecuteFirstMatched` lives in command.go,
which is not under src/ (only command_test.go is).  Spec section 4.5: the first
matched command's "execute is invoked; its Response is returned verbatim.  If
no command matches, returns no-response, no-error." -/
def ExecuteFirstMatched (commands : List Command) (input : Input) :
    Option CommandResponse × Option String :=
  match FindFirstMatched commands input.message with
  | none => (none, none)
  | some c => c.execute input

/-- Mirror of `abandonedCommand` in command_test.go lines 65-81: its match
predicate accepts nothing, and it executes to (nil, nil). -/
def abandonedCommand : Command :=
  { identifier := "arbitraryStringThatWouldNeverBeRecognized"
    matcher := fun _ => false
    execute := fun _ => (none, none) }

/-- Mirror of `echoCommand` in command_test.go lines 83-99: its match predicate
accepts messages with prefix "echo" (`strings.HasPrefix`, expressed over the
character list), and it echoes the message back. -/
def echoCommand : Command :=
  { identifier := "echo"
    matcher := fun msg => "echo".data.isPrefixOf msg.data
    execute := fun input => (some { content := input.message }, none) }

/-- Mirror of `echoInput` in command_test.go lines 101-117. -/
def echoInput : Input :=
  { senderKey := "uniqueValue", message := "echo foo", replyTo := none }

end Sarah.Cmd

namespace Sarah.Task

/-- `sarah.ScheduledTaskResult` (task.go lines 21-24): a content and a nil-able
output destination.  `Content` is `interface` in Go; the tests exercise it with
strings, which is how it is modelled here.  `OutputDestination` is likewise an
opaque handle modelled as a string, with `Option` for Go's nil. -/
structure ScheduledTaskResult where
  content : String
  destination : Option String
  deriving DecidableEq, Repr

/-- An outbound message as produced for a scheduled task result:
`NewOutputMessage(destination, content)` handed to `Bot.SendMessage`. -/
structure Output where
  destination : String
  content : String
  deriving DecidableEq, Repr

/-- Modelled from the spec: runner.go's `executeScheduledTask` is not under
src/ (only its test `Test_executeScheduledTask` is).  Spec section 4.6: for
each returned result the destination is computed with priority "result
destination > task default destination > drop" and
`bot.SendMessage(ctx, Output(destination, content))` is called; "If execute
returns an error it is logged" and nothing is sent.  The task execution
outcome is passed as an `Except` value and the produced SendMessage outputs
are returned in order. -/
def executeScheduledTask (taskOutcome : Except String (List ScheduledTaskResult))
    (defaultDestination : Option String) : List Output :=
  match taskOutcome with
  | .error _ => []
  | .ok results =>
    results.filterMap fun r =>
      match r.destination, defaultDestination with
      | some d, _ => some { destination := d, content := r.content }
      | none, some d => some { destination := d, content := r.content }
      | none, none => none

/-- A task function: the Go `taskFunc` takes variadic `TaskConfig` values and
returns a result slice and an error.  Only its identity matters to `Build`,
which checks it against nil and stores it. -/
structure TaskConfig where
  /-- `some s` when the concrete config type implements the `ScheduledConfig`
  interface with `Schedule()` returning `s`; `none` when the type assertion
  `(taskConfig).(ScheduledConfig)` fails (task.go lines 171-177). -/
  scheduleMethod : Option String
  /-- `some d` when the concrete config type implements the `DestinatedConfig`
  interface with `DefaultDestination()` returning `d` (`d = none` models a nil
  return); `none` when the type assertion fails (task.go lines 185-191). -/
  destinationMethod : Option (Option String)
  deriving DecidableEq, Repr

/-- The stored task function, `taskFunc` in Go: takes the configs passed at
execution time and returns results plus a nil-able error. -/
def TaskFunc : Type :=
  List TaskConfig → List ScheduledTaskResult × Option String

/-- `sarah.ScheduledTaskBuilder` (task.go lines 89-95).  `taskFunc` and
`config` are nil-able pointers/interfaces, hence `Option`. -/
structure ScheduledTaskBuilder where
  identifier : String
  taskFunc : Option TaskFunc
  schedule : String
  defaultDestination : Option String
  config : Option TaskConfig

/-- The data of the `scheduledTask` struct produced by a successful Build
(task.go lines 53-59 and 193-199). -/
structure ScheduledTaskData where
  identifier : String
  taskFunc : TaskFunc
  schedule : String
  defaultDestination : Option String
  config : Option TaskConfig

/-- Outcome of `readConfig(configPath, taskConfig)` at a given path.
`readConfig` itself is not under src/; its observable outcomes, as handled by
`Build` (task.go lines 158-166), are: an error with `os.IsNotExist`, another
read/parse error, or success, in which case the YAML content is unmarshalled
into the config struct in place (modelled as a populate function). -/
inductive ReadResult
  | notExist
  | failure
  | populated (populate : TaskConfig → TaskConfig)

/-- Errors `Build` can return (task.go lines 13-18; a read failure returns the
underlying error unchanged). -/
inductive BuildError
  | insufficientArgument
  | scheduleNotGiven
  | readFailure
  deriving DecidableEq, Repr

/-- `path.Join(configDir, builder.identifier + ".yaml")` for a non-empty
`configDir` (task.go lines 156-157). -/
def configPath (configDir id : String) : String :=
  configDir ++ "/" ++ id ++ ".yaml"

/-- The config-reading stage of `Build` (task.go lines 152-167): when a config
prototype and a non-empty config directory are both present, the corresponding
file is read; a missing file is tolerated (the prototype is kept as-is, with an
info log); any other read error aborts the build.  `fs` maps a path to the
outcome of `readConfig` at that path. -/
def readTaskConfig (fs : String → ReadResult) (builder : ScheduledTaskBuilder)
    (configDir : String) : Except BuildError (Option TaskConfig) :=
  match builder.config with
  | none => .ok none
  | some cfg =>
    if configDir = "" then .ok (some cfg)
    else
      match fs (configPath configDir builder.identifier) with
      | .notExist => .ok (some cfg)
      | .failure => .error .readFailure
      | .populated populate => .ok (some (populate cfg))

/-- The schedule-resolution stage of `Build` (task.go lines 169-177): the
builder's explicit schedule, overridden by the (post-read) config struct's
`Schedule()` value when the struct implements `ScheduledConfig` and the value
is non-empty. -/
def effectiveSchedule (builder : ScheduledTaskBuilder)
    (taskConfig : Option TaskConfig) : String :=
  match taskConfig with
  | some cfg =>
    match cfg.scheduleMethod with
    | some s => if s = "" then builder.schedule else s
    | none => builder.schedule
  | none => builder.schedule

/-- The destination-resolution stage of `Build` (task.go lines 182-191): the
builder's default destination, overridden by the config struct's
`DefaultDestination()` when the struct implements `DestinatedConfig` and the
returned value is non-nil. -/
def effectiveDestination (builder : ScheduledTaskBuilder)
    (taskConfig : Option TaskConfig) : Option String :=
  match taskConfig with
  | some cfg =>
    match cfg.destinationMethod with
    | some (some d) => some d
    | some none => builder.defaultDestination
    | none => builder.defaultDestination
  | none => builder.defaultDestination

/-- Embeds `ScheduledTaskBuilder.Build` (task.go lines 147-200): insufficient
arguments are rejected first; the config file is then read (missing file
tolerated, other read errors fatal); the schedule is resolved (failing with
`ErrTaskScheduleNotGiven` when empty) and the default destination computed;
finally the `scheduledTask` is assembled, carrying the post-read config. -/
def Build (fs : String → ReadResult) (builder : ScheduledTaskBuilder)
    (configDir : String) : Except BuildError ScheduledTaskData :=
  match builder.taskFunc with
  | none => .error .insufficientArgument
  | some f =>
    if builder.identifier = "" then .error .insufficientArgument
    else
      match readTaskConfig fs builder configDir with
      | .error e => .error e
      | .ok taskConfig =>
        let schedule := effectiveSchedule builder taskConfig
        if schedule = "" then .error .scheduleNotGiven
        else
          .ok { identifier := builder.identifier
                taskFunc := f
                schedule := schedule
                defaultDestination := effectiveDestination builder taskConfig
                config := taskConfig }

end Sarah.Task

namespace Sarah.RetryPkg

/-- Modelled from the spec: the implementation of `Retry` in retry/retry.go is
not under src/ (only retry/retry_test.go is).  Spec section 4.2: "call fn; if
it returns an error, sleep interval ± jitter and try again up to trial total
attempts.  On final failure, return an aggregated error exposing every
attempt's error."  Sleeping is not modelled.  The target function is modelled
by the sequence of its per-attempt outcomes: `fn k` is the outcome of the k-th
call (`none` = success, `some e` = error e).  `retryFrom fn fuel calls acc`
runs the remaining `fuel` attempts starting from call index `calls` with the
errors `acc` already collected; it returns the total number of calls made and,
on final failure, the aggregated per-attempt errors. -/
def retryFrom (fn : Nat → Option String) :
    Nat → Nat → List String → Nat × Option (List String)
  | 0, calls, acc => (calls, some acc)
  | fuel + 1, calls, acc =>
    match fn calls with
    | none => (calls + 1, none)
    | some e => retryFrom fn fuel (calls + 1) (acc ++ [e])

/-- Modelled from the spec (section 4.2, see `retryFrom`): `Retry(trial, fn)`
makes up to `trial` attempts.  Returns the number of calls actually made and
`none` on success, or `some errs` aggregating every attempt's error on final
failure (retry_test.go checks `len(err.Errors) == trial`). -/
def Retry (trial : Nat) (fn : Nat → Option String) : Nat × Option (List String) :=
  retryFrom fn trial 0 []

end Sarah.RetryPkg

namespace Sarah.Watch

/-- `watchingDir` (part_006 lines 10-15) restricted to the fields the cancel
branch inspects: the owning bot type and the watched directory.  The callback
is irrelevant to subscription removal. -/
structure WatchingDir where
  botType : String
  dir : String
  deriving DecidableEq, Repr

/-- Embeds the `botType := <-dw.cancel` branch of `dirWatcher.receiveEvent`
(part_006 lines 87-106).  The Go `subscription` map is modelled as an
association list and its (nondeterministic) iteration order as the list order.
For each directory entry in turn: watches tied to the cancelled bot type are
excluded; if none remain, the directory is removed from the underlying
fsnotify watcher, its entry is deleted, and the `break` statement then leaves
the loop, so every later entry stays untouched; otherwise the entry is
replaced by
the remaining watches.  Returns the resulting subscription table together with
the directories removed from the underlying watcher. -/
def cancelBotType :
    List (String × List WatchingDir) → String →
    List (String × List WatchingDir) × List String
  | [], _ => ([], [])
  | (dir, watches) :: rest, botType =>
    let remains := watches.filter (fun w => w.botType ≠ botType)
    if remains.isEmpty then
      (rest, [dir])
    else
      let next := cancelBotType rest botType
      ((dir, remains) :: next.1, next.2)

end Sarah.Watch

namespace Sarah.Runner

/-- `botProperty` (part_000 lines 40-44) restricted to what `AddAdapter`
inspects and stores: the adapter's bot type and the plugin config directory.
(The command list of a fresh property is empty and not consulted here.) -/
structure BotProperty where
  botType : String
  pluginConfigDir : String
  deriving DecidableEq, Repr

/-- Embeds `BotRunner.AddAdapter` (part_000 lines 80-89): the stored
botProperties are scanned for an adapter with the same BotType; a conflict
panics (modelled by the Bool flag `true`; the property list is returned
unchanged, since the panic fires before the append); otherwise a new
botProperty is appended. -/
def AddAdapter (props : List BotProperty) (botType configDir : String) :
    List BotProperty × Bool :=
  if props.any (fun p => p.botType = botType) then
    (props, true)
  else
    (props ++ [{ botType := botType, pluginConfigDir := configDir }], false)

end Sarah.Runner

namespace Sarah.Slack

/-- A field of a Slack message attachment (`webapi.AttachmentField`), as built
from a `CommandHelp` in `SendMessage` (slack/adapter.go lines 367-374). -/
structure AttachmentField where
  title : String
  value : String
  deriving DecidableEq, Repr

/-- A Web API post (`webapi.PostMessage`) restricted to the parts `SendMessage`
determines: target channel, text, and attachment fields. -/
structure PostMessage where
  channel : String
  text : String
  fields : List AttachmentField
  deriving DecidableEq, Repr

/-- One entry of a `sarah.CommandHelps` list. -/
structure CommandHelp where
  identifier : String
  instruction : String
  deriving DecidableEq, Repr

/-- The dynamic type of `output.Content()` as dispatched by the type switch in
`Adapter.SendMessage` (slack/adapter.go line 341): a string, a
`*webapi.PostMessage`, a `*sarah.CommandHelps`, or any other (unrecognized)
type. -/
inductive OutputContent
  | text (s : String)
  | post (message : PostMessage)
  | helps (commandHelps : List CommandHelp)
  | other
  deriving DecidableEq, Repr

/-- The outcome of the type assertion `output.Destination().(slackobject.ChannelID)`
(slack/adapter.go lines 343, 361): a Slack channel ID, or some other value. -/
inductive SlackDestination
  | channel (id : String)
  | other
  deriving DecidableEq, Repr

/-- A `sarah.Output`: content plus destination, as consumed by `SendMessage`. -/
structure Output where
  content : OutputContent
  destination : SlackDestination

/-- An externally visible effect of `Adapter.SendMessage`: a `textMessage`
enqueued to `adapter.messageQueue`, or a Web API call
`adapter.client.PostMessage`. -/
inductive SendEffect
  | enqueue (channel : String) (text : String)
  | postViaAPI (message : PostMessage)
  deriving DecidableEq, Repr

/-- Embeds `Adapter.SendMessage` (slack/adapter.go lines 340-393) as the list
of effects it produces.  A string content is enqueued to the outgoing message
queue when the destination is a channel ID and otherwise only logged; a
`*webapi.PostMessage` is posted via the Web API; a `*sarah.CommandHelps` is
turned into an attachment post when the destination is a channel ID; any other
content type is logged and ignored. -/
def SendMessage (output : Output) : List SendEffect :=
  match output.content with
  | .text s =>
    match output.destination with
    | .channel id => [.enqueue id s]
    | .other => []
  | .post m => [.postViaAPI m]
  | .helps hs =>
    match output.destination with
    | .channel id =>
      [.postViaAPI
        { channel := id
          text := ""
          fields := hs.map fun h => { title := h.identifier, value := h.instruction } }]
    | .other => []
  | .other => []

end Sarah.Slack

namespace Sarah.Examples

/-- A trivial task function, used to instantiate builders concretely. -/
def nullTaskFunc : Sarah.Task.TaskFunc := fun _ => ([], none)

/-- A builder with identifier and function set, an empty explicit schedule, and
a config prototype implementing neither `ScheduledConfig` nor
`DestinatedConfig` (so no source provides a schedule). -/
def schedulelessBuilder : Sarah.Task.ScheduledTaskBuilder :=
  { identifier := "scheduled"
    taskFunc := some nullTaskFunc
    schedule := ""
    defaultDestination := none
    config := some { scheduleMethod := none, destinationMethod := none } }

/-- A builder with an explicit schedule "@daily" and a config prototype whose
`Schedule()` returns the non-empty "@hourly" (which must override). -/
def overriddenBuilder : Sarah.Task.ScheduledTaskBuilder :=
  { identifier := "task"
    taskFunc := some nullTaskFunc
    schedule := "@daily"
    defaultDestination := none
    config := some { scheduleMethod := some "@hourly", destinationMethod := none } }

/-- A filesystem on which every `readConfig` call reports a missing file. -/
def missingFs : String → Sarah.Task.ReadResult := fun _ => .notExist

/-- A filesystem on which every `readConfig` call fails on a present file. -/
def failingFs : String → Sarah.Task.ReadResult := fun _ => .failure

end Sarah.Examples

section WorkerTheorems

open Sarah.Worker

/-- Helper: `runChildJobs` executes every received job. -/
theorem runChildJobs_count (jobs : List JobBehavior) :
    (runChildJobs jobs).1 = jobs.length := by
  induction jobs with
  | nil => rfl
  | cons job rest ih => simp [runChildJobs, ih]

/-- Helper: `runChildJobs` logs one recovery warning per panicking job. -/
theorem runChildJobs_logs (jobs : List JobBehavior) :
    (runChildJobs jobs).2.length = (jobs.filter isPanicking).length := by
  induction jobs with
  | nil => rfl
  | cons job rest ih =>
    cases job with
    | returns => simp [runChildJobs, recoverJob, runJob, isPanicking, ih]
    | panics v => simp [runChildJobs, recoverJob, runJob, isPanicking, ih]

/-- C1 (counterexample): the claim says `EnqueueJob` "does not block" and
signals overflow to the caller in the saturated case.  On the code, with the
job queue already holding its full capacity of 100 jobs, `EnqueueJob` performs
a channel send that blocks; no overflow error exists in its signature. -/
theorem worker_enqueue_claim_counterexample :
    EnqueueJob (List.replicate queueCapacity JobBehavior.returns) JobBehavior.returns
      = SendResult.blocked := by
  decide

/-- C1 (amended): `EnqueueJob` is a blocking channel send into a job queue of
hardcoded capacity 100 (not configured): while the queue is below capacity the
job is appended, so the queue never exceeds 100 jobs; when the queue already
holds 100 jobs the call blocks, and no overflow error is signalled to the
caller. -/
theorem worker_enqueue_blocking_bounded (queue : List JobBehavior) (job : JobBehavior) :
    (queue.length < queueCapacity →
      EnqueueJob queue job = .delivered (queue ++ [job]) ∧
      (queue ++ [job]).length ≤ queueCapacity) ∧
    (¬ queue.length < queueCapacity → EnqueueJob queue job = .blocked) := by
  constructor
  · intro h
    constructor
    · simp [EnqueueJob, chanSend, h]
    · simpa using h
  · intro h
    simp [EnqueueJob, chanSend, h]

/-- C1 (witness for the amended theorem): at the empty queue the job is
delivered within bounds; at the saturated queue the send blocks. -/
theorem worker_enqueue_blocking_bounded_witness :
    (EnqueueJob [] JobBehavior.returns = .delivered ([] ++ [JobBehavior.returns]) ∧
      (([] : List JobBehavior) ++ [JobBehavior.returns]).length ≤ queueCapacity) ∧
    EnqueueJob (List.replicate 100 JobBehavior.returns) JobBehavior.returns
      = SendResult.blocked :=
  ⟨(worker_enqueue_blocking_bounded [] JobBehavior.returns).1 (by decide),
   (worker_enqueue_blocking_bounded
      (List.replicate 100 JobBehavior.returns) JobBehavior.returns).2 (by decide)⟩

/-- C6: a panicking job is recovered inside the worker: the worker executes
every job of the received sequence regardless of panics (the panic does not
propagate and later jobs still run), one recovery warning is logged per
panicking job, and every panic value appears in the logged warnings. -/
theorem worker_runchild_panic_isolation (jobs : List JobBehavior) :
    (runChildJobs jobs).1 = jobs.length ∧
    (runChildJobs jobs).2.length = (jobs.filter isPanicking).length ∧
    (∀ v, JobBehavior.panics v ∈ jobs →
      ("panic in given job. recovered: " ++ v) ∈ (runChildJobs jobs).2) := by
  refine ⟨runChildJobs_count jobs, runChildJobs_logs jobs, ?_⟩
  intro v hv
  induction jobs with
  | nil => cases hv
  | cons job rest ih =>
    rcases List.mem_cons.mp hv with h | h
    · subst h
      simp [runChildJobs, recoverJob, runJob]
    · have := ih h
      cases job with
      | returns => simpa [runChildJobs, recoverJob, runJob] using this
      | panics w => simp [runChildJobs, recoverJob, runJob, this]

/-- C6 (witness): a concrete run where the first job panics and the second
still executes, with the panic value logged. -/
theorem worker_runchild_panic_isolation_witness :
    (runChildJobs [JobBehavior.panics "boom", JobBehavior.returns]).1 = 2 ∧
    (runChildJobs [JobBehavior.panics "boom", JobBehavior.returns]).2.length = 1 ∧
    ("panic in given job. recovered: " ++ "boom")
      ∈ (runChildJobs [JobBehavior.panics "boom", JobBehavior.returns]).2 := by
  have h := worker_runchild_panic_isolation [JobBehavior.panics "boom", JobBehavior.returns]
  exact ⟨h.1, by simpa using h.2.1, h.2.2 "boom" (by decide)⟩

end WorkerTheorems

section CommandTheorems

open Sarah.Cmd

/-- Helper: a successful `List.find?` splits the list into a prefix of
non-matching elements, the found element, and a remainder. -/
theorem find_eq_some_split {α : Type} (p : α → Bool) :
    ∀ (l : List α) (a : α), l.find? p = some a →
      p a = true ∧ ∃ pre post, l = pre ++ a :: post ∧ ∀ b ∈ pre, p b = false := by
  intro l
  induction l with
  | nil => intro a h; cases h
  | cons x xs ih =>
    intro a h
    by_cases hx : p x = true
    · rw [List.find?_cons_of_pos _ hx] at h
      obtain rfl : x = a := by injection h
      exact ⟨hx, [], xs, rfl, by intro b hb; cases hb⟩
    · have hx' : p x = false := by simpa using hx
      rw [List.find?_cons_of_neg _ (by simp [hx'])] at h
      obtain ⟨hpa, pre, post, rfl, hpre⟩ := ih a h
      refine ⟨hpa, x :: pre, post, rfl, ?_⟩
      intro b hb
      rcases List.mem_cons.mp hb with rfl | hb
      · exact hx'
      · exact hpre b hb

/-- C2: `FindFirstMatched` scans the command list in insertion order and
returns the first command whose match predicate accepts the input's message:
every command stored before it rejects the message.  `ExecuteFirstMatched`
invokes that command's execute function and returns its result verbatim; when
no command matches, it returns no-response, no-error. -/
theorem commands_first_matched_semantics (cmds : List Command) (input : Input) :
    (∀ c, FindFirstMatched cmds input.message = some c →
      c.matcher input.message = true ∧
      (∃ pre post, cmds = pre ++ c :: post ∧
        ∀ b ∈ pre, b.matcher input.message = false) ∧
      ExecuteFirstMatched cmds input = c.execute input) ∧
    (FindFirstMatched cmds input.message = none →
      (∀ b ∈ cmds, b.matcher input.message = false) ∧
      ExecuteFirstMatched cmds input = (none, none)) := by
  constructor
  · intro c hfind
    have hfind' : List.find? (fun c => c.matcher input.message) cmds = some c := hfind
    obtain ⟨hmatch, pre, post, hsplit, hpre⟩ :=
      find_eq_some_split (fun c => c.matcher input.message) cmds c hfind'
    refine ⟨hmatch, ⟨pre, post, hsplit, hpre⟩, ?_⟩
    simp [ExecuteFirstMatched, hfind]
  · intro hfind
    constructor
    · intro b hb
      have := List.find?_eq_none.mp hfind b hb
      simpa using this
    · simp [ExecuteFirstMatched, hfind]

/-- C2 (witness): mirror of `TestCommands_FindFirstMatched`: among
[abandoned, echo, abandoned], the input "echo foo" selects the echo command
(the non-matching command before it rejects) and execution returns the echo
command's response verbatim. -/
theorem commands_first_matched_semantics_witness :
    Sarah.Cmd.echoCommand.matcher Sarah.Cmd.echoInput.message = true ∧
    ExecuteFirstMatched [abandonedCommand, echoCommand, abandonedCommand] echoInput
      = echoCommand.execute echoInput :=
  have h :=
    (commands_first_matched_semantics
        [abandonedCommand, echoCommand, abandonedCommand] echoInput).1
      echoCommand (by rfl)
  ⟨h.1, h.2.2⟩

end CommandTheorems

section TaskTheorems

open Sarah.Task

/-- C3: per-result destination selection for a scheduled task execution: a task
execution that returns an error produces no SendMessage output at all; an empty
result list produces none; and each result contributes its own destination when
set, otherwise the task's default destination when set; when neither is set the
result contributes nothing (it is dropped). -/
theorem scheduled_task_destination_priority :
    ∀ (defaultDest : Option String) (e : String)
      (r : ScheduledTaskResult) (rest : List ScheduledTaskResult),
    executeScheduledTask (.error e) defaultDest = [] ∧
    executeScheduledTask (.ok []) defaultDest = [] ∧
    executeScheduledTask (.ok (r :: rest)) defaultDest =
      (match r.destination, defaultDest with
        | some d, _ => [{ destination := d, content := r.content }]
        | none, some d => [{ destination := d, content := r.content }]
        | none, none => []) ++ executeScheduledTask (.ok rest) defaultDest := by
  intro defaultDest e r rest
  refine ⟨rfl, rfl, ?_⟩
  rcases r with ⟨content, dest⟩
  rcases dest with _ | d <;> rcases defaultDest with _ | dd <;>
    simp [executeScheduledTask, List.filterMap_cons]

/-- Validation of the spec-modelled `executeScheduledTask` against the five
test sets of `Test_executeScheduledTask` (part_005 lines 168-217): no output
for a nil result list, for an erroring execution, or for a result with neither
destination; the default destination is used when only it is set; the result's
own destination is used when present. -/
theorem executeScheduledTask_agrees_with_runner_test :
    executeScheduledTask (.ok []) none = [] ∧
    executeScheduledTask (.error "dummy") none = [] ∧
    executeScheduledTask
      (.ok [{ content := "dummy content", destination := none }]) none = [] ∧
    executeScheduledTask
      (.ok [{ content := "dummy content", destination := none }])
      (some "#defaultDestination")
      = [{ destination := "#defaultDestination", content := "dummy content" }] ∧
    executeScheduledTask
      (.ok [{ content := "dummy content", destination := some "#dummyDestination" }])
      none
      = [{ destination := "#dummyDestination", content := "dummy content" }] :=
  ⟨rfl, rfl, rfl, rfl, rfl⟩

end TaskTheorems

section BuildTheorems

open Sarah.Task Sarah.Examples

/-- Helper: under sufficient arguments and a non-failing config read, `Build`
reduces to the schedule check over the resolved values. -/
theorem Build_eq_of_read (fs : String → ReadResult) (builder : ScheduledTaskBuilder)
    (configDir : String) (f : TaskFunc) (cfg : Option TaskConfig)
    (hfn : builder.taskFunc = some f)
    (hid : builder.identifier ≠ "")
    (hread : readTaskConfig fs builder configDir = .ok cfg) :
    Build fs builder configDir =
      if effectiveSchedule builder cfg = "" then .error .scheduleNotGiven
      else .ok { identifier := builder.identifier
                 taskFunc := f
                 schedule := effectiveSchedule builder cfg
                 defaultDestination := effectiveDestination builder cfg
                 config := cfg } := by
  simp only [Build, hfn, hread, if_neg hid]

/-- C4: given sufficient arguments and a non-failing config read resolving to
`cfg`, `Build` fails with the schedule-not-given error exactly when the
effective schedule is empty; a built task carries the effective schedule; the
effective schedule is empty exactly when the builder's explicit schedule is
empty and the config provides no non-empty `Schedule()`; and a non-empty
config `Schedule()` value overrides the builder's explicit schedule. -/
theorem task_build_schedule_source (fs : String → ReadResult)
    (builder : ScheduledTaskBuilder) (configDir : String) (f : TaskFunc)
    (cfg : Option TaskConfig)
    (hid : builder.identifier ≠ "")
    (hfn : builder.taskFunc = some f)
    (hread : readTaskConfig fs builder configDir = .ok cfg) :
    (Build fs builder configDir = .error .scheduleNotGiven ↔
      effectiveSchedule builder cfg = "") ∧
    (∀ t, Build fs builder configDir = .ok t →
      t.schedule = effectiveSchedule builder cfg) ∧
    (effectiveSchedule builder cfg = "" ↔
      (builder.schedule = "" ∧
        ∀ c s, cfg = some c → c.scheduleMethod = some s → s = "")) ∧
    (∀ c s, cfg = some c → c.scheduleMethod = some s → s ≠ "" →
      effectiveSchedule builder cfg = s) := by
  have hb := Build_eq_of_read fs builder configDir f cfg hfn hid hread
  refine ⟨?_, ?_, ?_, ?_⟩
  · constructor
    · intro h
      by_contra hs
      rw [hb, if_neg hs] at h
      cases h
    · intro hs
      rw [hb, if_pos hs]
  · intro t ht
    rw [hb] at ht
    by_cases hs : effectiveSchedule builder cfg = ""
    · rw [if_pos hs] at ht; cases ht
    · rw [if_neg hs] at ht
      injection ht with h
      rw [← h]
  · rcases cfg with _ | c
    · simp [effectiveSchedule]
    · rcases hs : c.scheduleMethod with _ | s
      · simp only [effectiveSchedule, hs]
        constructor
        · intro h
          refine ⟨h, ?_⟩
          intro c' s' hc hsm
          obtain rfl : c = c' := by injection hc
          rw [hs] at hsm
          cases hsm
        · intro h
          exact h.1
      · by_cases hse : s = ""
        · subst hse
          simp only [effectiveSchedule, hs, if_pos rfl]
          constructor
          · intro h
            refine ⟨h, ?_⟩
            intro c' s' hc hsm
            obtain rfl : c = c' := by injection hc
            rw [hs] at hsm
            injection hsm with h2
            exact h2.symm
          · intro h
            exact h.1
        · simp only [effectiveSchedule, hs, if_neg hse]
          constructor
          · intro h
            exact absurd h hse
          · intro h
            exact absurd (h.2 c s rfl hs) hse
  · intro c s hc hsm hse
    subst hc
    simp [effectiveSchedule, hsm, hse]

/-- C4 (witness): a builder with explicit schedule "@daily" and a config whose
`Schedule()` returns "@hourly": the config value overrides, and the build does
not fail with the schedule-not-given error. -/
theorem task_build_schedule_source_witness :
    effectiveSchedule overriddenBuilder overriddenBuilder.config = "@hourly" ∧
    ¬ (Build missingFs overriddenBuilder "" = .error .scheduleNotGiven) := by
  have h := task_build_schedule_source missingFs overriddenBuilder "" nullTaskFunc
    overriddenBuilder.config (by decide) rfl rfl
  have hov : effectiveSchedule overriddenBuilder overriddenBuilder.config = "@hourly" :=
    h.2.2.2 { scheduleMethod := some "@hourly", destinationMethod := none } "@hourly"
      rfl rfl (by decide)
  refine ⟨hov, ?_⟩
  intro hc
  have h2 : effectiveSchedule overriddenBuilder overriddenBuilder.config = "" := h.1.mp hc
  rw [hov] at h2
  exact absurd h2 (by decide)

end BuildTheorems

section BuildFileTheorems

open Sarah.Task Sarah.Examples

/-- C5 (counterexample): the claim says a build carrying a config prototype
and a non-empty config directory succeeds whenever the config file is missing.
On the code, the builder with identifier and function set, an empty explicit
schedule and a schedule-less config prototype, built against a directory whose
file does not exist, fails with `ErrTaskScheduleNotGiven` instead of
succeeding. -/
theorem task_build_missing_file_counterexample :
    Build missingFs schedulelessBuilder "config" = .error .scheduleNotGiven := rfl

/-- C5 (amended): for a build carrying a config prototype and a non-empty
config directory: a missing config file is tolerated, and the build proceeds
with the prototype's current values exactly as a build with no config
directory would (so it succeeds only when the remaining requirements, notably
a non-empty effective schedule, are also met); a file that exists but cannot
be read or parsed makes the build fail with an error, producing no task. -/
theorem task_build_missing_file_tolerated (fs fs2 : String → ReadResult)
    (builder : ScheduledTaskBuilder) (configDir : String) (cfg : TaskConfig)
    (hdir : configDir ≠ "")
    (hcfg : builder.config = some cfg) :
    (fs (configPath configDir builder.identifier) = .notExist →
      Build fs builder configDir = Build fs2 builder "") ∧
    (fs (configPath configDir builder.identifier) = .failure →
      builder.identifier ≠ "" → (∃ f, builder.taskFunc = some f) →
      Build fs builder configDir = .error .readFailure) := by
  constructor
  · intro hmiss
    have hr1 : readTaskConfig fs builder configDir = .ok (some cfg) := by
      simp only [readTaskConfig, hcfg, if_neg hdir, hmiss]
    have hr2 : readTaskConfig fs2 builder "" = .ok (some cfg) := by
      simp [readTaskConfig, hcfg]
    simp only [Build, hr1, hr2]
  · intro hfail hid ⟨f, hfn⟩
    have hr : readTaskConfig fs builder configDir = .error .readFailure := by
      simp only [readTaskConfig, hcfg, if_neg hdir, hfail]
    simp only [Build, hfn, hr, if_neg hid]

/-- C5 (witness for the amended theorem): the scheduleless builder against a
missing file behaves exactly as a build with no config directory, and against
an unreadable file fails with the read error. -/
theorem task_build_missing_file_tolerated_witness :
    Build missingFs schedulelessBuilder "config" = Build missingFs schedulelessBuilder "" ∧
    Build failingFs schedulelessBuilder "config" = .error .readFailure :=
  ⟨(task_build_missing_file_tolerated missingFs missingFs schedulelessBuilder "config"
      { scheduleMethod := none, destinationMethod := none } (by decide) rfl).1 rfl,
   (task_build_missing_file_tolerated failingFs missingFs schedulelessBuilder "config"
      { scheduleMethod := none, destinationMethod := none } (by decide) rfl).2 rfl
     (by decide) ⟨nullTaskFunc, rfl⟩⟩

end BuildFileTheorems

section RetryTheorems

open Sarah.RetryPkg

/-- Helper: when every remaining attempt fails, `retryFrom` makes exactly the
remaining number of calls and aggregates every attempt's error in order. -/
theorem retryFrom_all_fail (fn : Nat → Option String) (errs : Nat → String) :
    ∀ (fuel start : Nat) (acc : List String),
      (∀ k, start ≤ k → k < start + fuel → fn k = some (errs k)) →
      retryFrom fn fuel start acc =
        (start + fuel, some (acc ++ (List.range' start fuel).map errs)) := by
  intro fuel
  induction fuel with
  | zero =>
    intro start acc _
    simp [retryFrom]
  | succ m ih =>
    intro start acc h
    have h0 : fn start = some (errs start) :=
      h start (Nat.le_refl start) (by omega)
    have hrec := ih (start + 1) (acc ++ [errs start]) (by
      intro k hk1 hk2
      exact h k (by omega) (by omega))
    simp only [retryFrom, h0, hrec]
    rw [Prod.mk.injEq]
    constructor
    · omega
    · rw [List.range'_succ]
      simp [List.append_assoc]

/-- C7: a target that fails on every attempt is called exactly `n` times by
`Retry` with trial `n`, and the returned aggregated error exposes all `n`
per-attempt errors in order; a target that succeeds on its first call is
called exactly once and no error is returned. -/
theorem retry_call_counts (n : Nat) (fn : Nat → Option String) (errs : Nat → String) :
    ((∀ k, k < n → fn k = some (errs k)) →
      Retry n fn = (n, some ((List.range n).map errs))) ∧
    (fn 0 = none → 1 ≤ n → Retry n fn = (1, none)) := by
  constructor
  · intro h
    have := retryFrom_all_fail fn errs n 0 [] (by
      intro k _ hk2
      exact h k (by omega))
    simpa [Retry, List.range_eq_range'] using this
  · intro h0 hn
    obtain ⟨m, rfl⟩ : ∃ m, n = m + 1 := ⟨n - 1, by omega⟩
    simp [Retry, retryFrom, h0]

/-- C7 (witness): with trial 3, a constantly failing target is called 3 times
and all 3 errors are aggregated; a target succeeding immediately is called
once with no error. -/
theorem retry_call_counts_witness :
    Retry 3 (fun _ => some "boom") = (3, some ((List.range 3).map (fun _ => "boom"))) ∧
    Retry 3 (fun _ => none) = (1, none) :=
  ⟨(retry_call_counts 3 (fun _ => some "boom") (fun _ => "boom")).1 (by decide),
   (retry_call_counts 3 (fun _ => none) (fun _ => "unused")).2 rfl (by decide)⟩

end RetryTheorems

section WatchTheorems

open Sarah.Watch

/-- C8 (evaluation at the failing input): with two directories each watched
only by subscriptions of bot type "slack", cancelling "slack" removes only the
first directory from the watcher and table; the `break` then ends the loop, so
the second directory keeps its "slack" subscription in the table (the boolean
conjunct witnesses the surviving subscription) and is never removed from the
underlying filesystem watcher, contradicting the claim that every subscription
of the bot type is removed and every thereby-emptied directory unregistered. -/
theorem dirwatcher_cancel_stops_after_first_removed_dir :
    cancelBotType
        [("dirA", [{ botType := "slack", dir := "dirA" }]),
         ("dirB", [{ botType := "slack", dir := "dirB" }])] "slack"
      = ([("dirB", [{ botType := "slack", dir := "dirB" }])], ["dirA"]) ∧
    ((cancelBotType
        [("dirA", [{ botType := "slack", dir := "dirA" }]),
         ("dirB", [{ botType := "slack", dir := "dirB" }])] "slack").1.any
      (fun entry => entry.2.any (fun w => w.botType = "slack"))) = true := by
  decide

end WatchTheorems

section RunnerTheorems

open Sarah.Runner

/-- C9: registering an adapter whose BotType is already present among the
stored bot properties does not succeed: the conflict is signalled (a panic in
the source, the flag here) and the property list is left unchanged; a
non-conflicting registration appends exactly one new property. -/
theorem bot_runner_add_adapter_duplicate (props : List BotProperty)
    (botType configDir : String) :
    ((∃ p ∈ props, p.botType = botType) →
      AddAdapter props botType configDir = (props, true)) ∧
    ((∀ p ∈ props, p.botType ≠ botType) →
      AddAdapter props botType configDir =
        (props ++ [{ botType := botType, pluginConfigDir := configDir }], false)) := by
  constructor
  · intro ⟨p, hp, hbt⟩
    have : props.any (fun q => q.botType = botType) = true :=
      List.any_eq_true.mpr ⟨p, hp, by simp [hbt]⟩
    simp [AddAdapter, this]
  · intro h
    have : props.any (fun q => q.botType = botType) = false := by
      rw [List.any_eq_false]
      intro p hp
      simp [h p hp]
    simp [AddAdapter, this]

/-- C9 (witness): mirror of `TestBotRunner_AddAdapter_DuplicationPanic`: the
first registration of bot type "foo" succeeds and appends; the second with the
same bot type is rejected and leaves the stored properties unchanged. -/
theorem bot_runner_add_adapter_duplicate_witness :
    AddAdapter [] "foo" ""
      = ([] ++ [{ botType := "foo", pluginConfigDir := "" }], false) ∧
    AddAdapter [{ botType := "foo", pluginConfigDir := "" }] "foo" ""
      = ([{ botType := "foo", pluginConfigDir := "" }], true) :=
  ⟨(bot_runner_add_adapter_duplicate [] "foo" "").2 (by intro p hp; cases hp),
   (bot_runner_add_adapter_duplicate
      [{ botType := "foo", pluginConfigDir := "" }] "foo" "").1
     ⟨{ botType := "foo", pluginConfigDir := "" }, by decide, rfl⟩⟩

end RunnerTheorems

section SlackTheorems

open Sarah.Slack

/-- C10: for the Slack adapter's `SendMessage`: a string content is enqueued
to the outgoing message queue exactly when the destination is a Slack channel
ID — with a channel destination the single effect is the enqueue of that text
to that channel, and with any other destination no effect is produced; content
of an unrecognized type produces no effect at all (nothing enqueued, nothing
posted). -/
theorem slack_send_message_dispatch (out : Output) :
    (∀ s, out.content = .text s →
      (∀ id, out.destination = .channel id →
        SendMessage out = [.enqueue id s]) ∧
      (out.destination = .other → SendMessage out = [])) ∧
    (out.content = .other → SendMessage out = []) := by
  rcases out with ⟨content, destination⟩
  constructor
  · intro s hs
    subst hs
    constructor
    · intro id hid
      subst hid
      rfl
    · intro hother
      subst hother
      rfl
  · intro h
    subst h
    rcases destination with id | _ <;> rfl

/-- C10 (witness): a string content to a channel destination enqueues exactly
that message; the same content to a non-channel destination produces nothing;
an unrecognized content produces nothing. -/
theorem slack_send_message_dispatch_witness :
    SendMessage { content := .text "hi", destination := .channel "C123" }
      = [.enqueue "C123" "hi"] ∧
    SendMessage { content := .text "hi", destination := .other } = [] ∧
    SendMessage { content := .other, destination := .channel "C123" } = [] :=
  ⟨((slack_send_message_dispatch
      { content := .text "hi", destination := .channel "C123" }).1 "hi" rfl).1 "C123" rfl,
   ((slack_send_message_dispatch
      { content := .text "hi", destination := .other }).1 "hi" rfl).2 rfl,
   (slack_send_message_dispatch
      { content := .other, destination := .channel "C123" }).2 rfl⟩

end SlackTheorems
